import Mathlib

/-!
Shallow embedding of the PatrickStar hybrid parameter-server client
(`src/client/client.py`, class `HybridPSClient`).

The orchestrator code (`prepare_device`, `access`, `release`, `new_tensor`,
`chunk_move`, `_init_ps_param`, `_convert_to_ps_data`, `_convert_to_ps_grad`)
is translated directly from `src/client/client.py`.  The collaborator modules
it imports (`manager.HybridPSManager`, `client.chunk_list.ChunkList`,
`client.chunk_data.Chunk`, `client.chunk_tensor_index.ChunkTensorIndex`,
`client.const`, `client.helper.getsizeof`) are not part of the provided
sources; those definitions are modelled from the specification (sections 3,
4.1, 4.2, 4.3 and 4.4 of the spec) and are marked as such in their doc
comments.

Python exceptions are embedded as `Except PSError`; an `Except.error` result
carries no state, which encodes that the raised exception leaves the
client's chunk list, tensor index and registry unchanged (the embedding
discards in-flight partial mutation on the error paths, which no claim
observes).

Device-to-device byte copying is not modelled (payload contents are outside
the model); a chunk's residence is its `device` field.  The spec (section
4.4 `move_chunk`) makes the rebinding of every dependent view mandatory on a
move, so a view's device is *derived* from its chunk's current device rather
than stored separately: `DataHandle.chunkView cid` is resident wherever
chunk `cid` currently is.
-/

namespace PatrickStar

/-- Memory tier of a `torch.device`: host (`cpu`) or accelerator (`cuda`). -/
inductive DevType where
  | cpu
  | cuda
deriving DecidableEq, Repr

/-- A `torch.device`: tier plus index (`torch.device('cpu')` is index 0). -/
structure Device where
  devType : DevType
  index : Nat
deriving DecidableEq, Repr

def Device.cpu0 : Device := ⟨DevType.cpu, 0⟩

def Device.cuda0 : Device := ⟨DevType.cuda, 0⟩

/-- Modelled from the spec (section 3, tensor status state machine); the
source module `client.const` defining `PSTensorStatus` is not among the
provided files.  `src/client/client.py` uses `FREE`, `HOLD` and `COMPUTE`. -/
inductive PSTensorStatus where
  | UNINIT
  | FREE
  | HOLD
  | COMPUTE
deriving DecidableEq, Repr

/-- Modelled from the spec (section 4.4 `access(tensor_id, kind, ...)`); the
source module `client.const` defining `AccessType` is not among the provided
files.  The two kinds are a parameter's data and its gradient. -/
inductive AccessType where
  | DATA
  | GRAD
deriving DecidableEq, Repr

/-- Element dtype of a chunk (`torch.dtype`), restricted to the two dtypes
the system uses (float32 and float16). -/
inductive DataType where
  | float
  | half
deriving DecidableEq, Repr

/-- Modelled from the spec: `client.helper.getsizeof` (bytes per element of
a dtype) is not among the provided files. -/
def getsizeof : DataType → Nat
  | DataType.float => 4
  | DataType.half => 2

/-- Errors of the embedding.  The spec's taxonomy (section 7) names
`UnsatisfiableAllocation`, `InsufficientEvictableMemory` and `NotManaged`;
the Python source raises `RuntimeError` at the corresponding sites.
`AttributeMissing` stands for Python's `AttributeError` (reading a
manager-specific attribute a parameter does not carry), `LookupFailed` for
an indexing failure on a dangling chunk id, and `AssertionFailed` for the
`assert` in the gradient branch of `access`. -/
inductive PSError where
  | NotManaged
  | UnsatisfiableAllocation
  | InsufficientEvictableMemory
  | AttributeMissing
  | LookupFailed
  | AssertionFailed
deriving DecidableEq, Repr

/-- One sub-allocated tensor range of a chunk, `client.chunk_data.TensorInfo`
(modelled from the spec, section 3 `tensor_ranges`): tensor identifier,
offset and length in elements, and the tensor's status. -/
structure TensorInfo where
  tensorId : Nat
  offset : Nat
  numel : Nat
  status : PSTensorStatus
deriving DecidableEq, Repr

/-- A chunk, `client.chunk_data.Chunk` (modelled from the spec, section 3):
fixed element capacity, single dtype, current device, its tensor ranges and
a recency marker for the LRU eviction order. -/
structure Chunk where
  capacity : Nat
  dataType : DataType
  device : Device
  tensorInfoList : List TensorInfo
  timestamp : Nat
deriving DecidableEq, Repr

/-- Elements already sub-allocated inside a chunk. -/
def Chunk.usedElems (c : Chunk) : Nat :=
  (c.tensorInfoList.map TensorInfo.numel).sum

/-- Size of a chunk's backing buffer in bytes (`capacity * getsizeof(dtype)`,
as computed at `src/client/client.py` lines 164-165). -/
def Chunk.bytes (c : Chunk) : Nat :=
  c.capacity * getsizeof c.dataType

/-- Aggregate chunk status `ALL_FREE` (spec section 3): every range FREE. -/
def Chunk.allFree (c : Chunk) : Bool :=
  c.tensorInfoList.all (fun t => decide (t.status = PSTensorStatus.FREE))

/-- Aggregate chunk status `HAS_COMPUTE` (spec section 3): some range
COMPUTE; such a chunk is pinned and never an eviction victim. -/
def Chunk.hasCompute (c : Chunk) : Bool :=
  c.tensorInfoList.any (fun t => decide (t.status = PSTensorStatus.COMPUTE))

/-- Set the status of the range of `tid` (modelled from the spec: the
source's `tensor_info_list.set_status(tensor_id, status)` of
`client.chunk_data` is not among the provided files). -/
def setStatusInfoList (l : List TensorInfo) (tid : Nat) (st : PSTensorStatus) :
    List TensorInfo :=
  l.map (fun t => if t.tensorId = tid then { t with status := st } else t)

/-- Status of tensor `tid` inside a chunk's range list, if it has a range. -/
def tensorStatusIn (c : Chunk) (tid : Nat) : Option PSTensorStatus :=
  (c.tensorInfoList.find? (fun t => decide (t.tensorId = tid))).map TensorInfo.status

/-- Modelled from the spec (section 4.1 Device Memory Registry): the source
module `manager.HybridPSManager` is not among the provided files.  Per
device: fixed total capacity and currently reserved bytes.  The spec has the
Chunk List "never block" on bookkeeping (section 4.2), so reservation
adjustment is a plain counter update here. -/
structure HybridPSManager where
  capacities : List (Device × Nat)
  reserved : List (Device × Nat)
deriving DecidableEq, Repr

/-- First-match association lookup (Python dict access in the model). -/
def lookupAssoc {α : Type} (l : List (Nat × α)) (k : Nat) : Option α :=
  match l with
  | [] => none
  | (k', v) :: rest => if k' = k then some v else lookupAssoc rest k

/-- Update every entry of key `k` in place. -/
def updateAssoc {α : Type} (l : List (Nat × α)) (k : Nat) (f : α → α) :
    List (Nat × α) :=
  match l with
  | [] => []
  | (k', v) :: rest =>
      (k', if k' = k then f v else v) :: updateAssoc rest k f

def lookupDev (l : List (Device × Nat)) (d : Device) : Nat :=
  match l with
  | [] => 0
  | (d', v) :: rest => if d' = d then v else lookupDev rest d

def adjustDev (l : List (Device × Nat)) (d : Device) (f : Nat → Nat) :
    List (Device × Nat) :=
  match l with
  | [] => [(d, f 0)]
  | (d', v) :: rest =>
      if d' = d then (d', f v) :: rest else (d', v) :: adjustDev rest d f

/-- `max_mem(type, index)`: total capacity of a device (spec section 4.1). -/
def HybridPSManager.maxMem (m : HybridPSManager) (d : Device) : Nat :=
  lookupDev m.capacities d

def HybridPSManager.usedMem (m : HybridPSManager) (d : Device) : Nat :=
  lookupDev m.reserved d

/-- `available_mem(type, index) = max - reserved` (spec section 4.1). -/
def HybridPSManager.availableMem (m : HybridPSManager) (d : Device) : Nat :=
  m.maxMem d - m.usedMem d

def HybridPSManager.reserve (m : HybridPSManager) (d : Device) (n : Nat) :
    HybridPSManager :=
  { m with reserved := adjustDev m.reserved d (fun v => v + n) }

def HybridPSManager.releaseMem (m : HybridPSManager) (d : Device) (n : Nat) :
    HybridPSManager :=
  { m with reserved := adjustDev m.reserved d (fun v => v - n) }

/-- The caller-facing `param.data` handle.  `rawBuffer` is the parameter's
original torch storage before registration, `chunkView` a view into a
chunk's backing buffer (its device derived from the chunk, see the file
header), `zeroBuffer n d` a freshly allocated `torch.zeros(n, device=d)`. -/
inductive DataHandle where
  | rawBuffer (device : Device)
  | chunkView (chunkId : Nat)
  | zeroBuffer (numel : Nat) (device : Device)
deriving DecidableEq, Repr

/-- A `torch.nn.Parameter` together with the manager-specific attributes the
client attaches to it (`ps_data_id`, `ps_grad_id`, `ps_data_tensor`,
`ps_grad_tensor`, `data_status`, `grad_status`, `ps_shape`); an `Option`
field is `none` when the Python attribute is absent or `None`.  A ps tensor
view is recorded as the id of the chunk backing it. -/
structure PSParam where
  psDataId : Option Nat
  psGradId : Option Nat
  dataStatus : PSTensorStatus
  gradStatus : PSTensorStatus
  psShape : List Nat
  dtype : DataType
  requiresGrad : Bool
  psDataTensor : Option Nat
  psGradTensor : Option Nat
  data : DataHandle
  grad : Option DataHandle
deriving DecidableEq, Repr

/-- `param.ps_numel`: number of elements of the parameter's shape. -/
def psNumel (p : PSParam) : Nat := p.psShape.prod

/-- `HybridPSClient.is_ps_param`: `hasattr(parameter, 'ps_data_id')`
(`src/client/client.py` lines 273-275). -/
def isPsParam (p : PSParam) : Bool := p.psDataId.isSome

/-- The whole client state: chunk list (`chunks`, keyed by chunk id, with
`nextChunkId` the monotone id supply), tensor index (`chunkTensorIndex`,
`tensor_id -> chunk_id`), id generator (`nextPsId`, the Python `ps_id + 1`),
registry and a logical clock backing the chunks' recency counters.
`defaultDevice` is the device new chunks are created on (modelled from the
spec, section 4.2: a new chunk is created "on a default device"; the module
`client.chunk_list` is not among the provided files). -/
structure HybridPSClient where
  defaultChunkSize : Nat
  defaultDevice : Device
  chunks : List (Nat × Chunk)
  nextChunkId : Nat
  chunkTensorIndex : List (Nat × Nat)
  nextPsId : Nat
  manager : HybridPSManager
  globalTime : Nat
deriving DecidableEq, Repr

def lookupChunk (s : HybridPSClient) (cid : Nat) : Option Chunk :=
  lookupAssoc s.chunks cid

/-- `ChunkTensorIndex.tensor_id_to_chunk_id` (modelled from the spec,
section 4.3 `tensor_to_chunk`; `client.chunk_tensor_index` is not among the
provided files): `none` when the tensor has no hosting chunk. -/
def tensorIdToChunkId (s : HybridPSClient) (tid : Nat) : Option Nat :=
  lookupAssoc s.chunkTensorIndex tid

/-- Device a `DataHandle` is resident on (a chunk view lives wherever its
chunk currently is). -/
def handleDevice (s : HybridPSClient) : DataHandle → Option Device
  | DataHandle.rawBuffer d => some d
  | DataHandle.chunkView cid => (lookupChunk s cid).map Chunk.device
  | DataHandle.zeroBuffer _ d => some d

/-- `HybridPSClient.chunk_move` (`src/client/client.py` lines 370-384) with
`Chunk.move` modelled from the spec (section 4.4 `move_chunk`): no-op when
already resident, otherwise the device field is updated, the source tier's
reservation is released and the destination tier's is taken, and every
dependent view is rebound (implicit here: view devices are derived). -/
def chunkMove (s : HybridPSClient) (cid : Nat) (d : Device) : HybridPSClient :=
  match lookupChunk s cid with
  | none => s
  | some c =>
      if c.device = d then s
      else
        { s with
          chunks := updateAssoc s.chunks cid (fun ch => { ch with device := d }),
          manager := (s.manager.releaseMem c.device c.bytes).reserve d c.bytes }

/-- `ChunkList.touch`-site of `access` (`src/client/client.py` line 168),
chunk recency modelled from the spec (section 4.2 `touch`): the chunk's
recency marker becomes the newest logical time. -/
def touchChunk (s : HybridPSClient) (cid : Nat) : HybridPSClient :=
  { s with
    chunks := updateAssoc s.chunks cid
      (fun ch => { ch with timestamp := s.globalTime + 1 }),
    globalTime := s.globalTime + 1 }

/-- `chunk_list[chunk_id].tensor_info_list.set_status(tid, st)` sites of
`access` and `release`. -/
def setTensorStatus (s : HybridPSClient) (cid : Nat) (tid : Nat)
    (st : PSTensorStatus) : HybridPSClient :=
  { s with
    chunks := updateAssoc s.chunks cid
      (fun ch => { ch with tensorInfoList := setStatusInfoList ch.tensorInfoList tid st }) }

/-- Modelled from the spec (section 4.2 `allocate`): `ChunkList.allocate`
(`client.chunk_list` is not among the provided files) first-fits the request
into the remaining free space of the most recently created chunk of matching
dtype, else creates a new chunk of capacity `max(default_chunk_size, numel)`
on the default device (reserving its bytes with the registry); the assigned
range starts in status `HOLD`.  Returns the hosting chunk id. -/
def chunkListAllocate (s : HybridPSClient) (numel : Nat) (dt : DataType)
    (tid : Nat) : HybridPSClient × Nat :=
  match s.chunks.getLast? with
  | some (cid, c) =>
      if c.dataType = dt ∧ c.usedElems + numel ≤ c.capacity then
        ({ s with chunks := updateAssoc s.chunks cid (fun ch =>
            { ch with tensorInfoList :=
                ch.tensorInfoList ++ [⟨tid, ch.usedElems, numel, PSTensorStatus.HOLD⟩] }) },
         cid)
      else
        let cap := max s.defaultChunkSize numel
        let c : Chunk := ⟨cap, dt, s.defaultDevice,
          [⟨tid, 0, numel, PSTensorStatus.HOLD⟩], s.globalTime⟩
        ({ s with
           chunks := s.chunks ++ [(s.nextChunkId, c)],
           nextChunkId := s.nextChunkId + 1,
           manager := s.manager.reserve s.defaultDevice c.bytes },
         s.nextChunkId)
  | none =>
      let cap := max s.defaultChunkSize numel
      let c : Chunk := ⟨cap, dt, s.defaultDevice,
        [⟨tid, 0, numel, PSTensorStatus.HOLD⟩], s.globalTime⟩
      ({ s with
         chunks := s.chunks ++ [(s.nextChunkId, c)],
         nextChunkId := s.nextChunkId + 1,
         manager := s.manager.reserve s.defaultDevice c.bytes },
       s.nextChunkId)

/-- `HybridPSClient.new_tensor` (`src/client/client.py` lines 250-271):
allocate `prod shape` elements via the chunk list and register the
`tensor_id -> chunk_id` binding in the tensor index. -/
def newTensor (s : HybridPSClient) (shape : List Nat) (dt : DataType)
    (tid : Nat) : HybridPSClient × Nat :=
  let numel := shape.prod
  let r := chunkListAllocate s numel dt tid
  ({ r.1 with chunkTensorIndex := (tid, r.2) :: r.1.chunkTensorIndex }, r.2)

/-- Insertion into a list sorted by ascending chunk recency. -/
def insertByTime (c : Nat × Chunk) : List (Nat × Chunk) → List (Nat × Chunk)
  | [] => [c]
  | x :: xs =>
      if c.2.timestamp ≤ x.2.timestamp then c :: x :: xs
      else x :: insertByTime c xs

/-- Sort chunks by ascending recency (least recently touched first). -/
def sortByTime : List (Nat × Chunk) → List (Nat × Chunk)
  | [] => []
  | x :: xs => insertByTime x (sortByTime xs)

/-- Accumulate victims in order until their combined full-capacity bytes
meet the need; error when the eligible chunks run out first (the spec's
`InsufficientEvictableMemory`, section 4.2). -/
def pickVictims (l : List (Nat × Chunk)) (need : Nat) :
    Except PSError (List Nat) :=
  match l, need with
  | _, 0 => Except.ok []
  | [], _ + 1 => Except.error PSError.InsufficientEvictableMemory
  | (cid, c) :: rest, n + 1 =>
      (pickVictims rest (n + 1 - c.bytes)).map (fun tail => cid :: tail)

/-- Modelled from the spec (section 4.2 `select_eviction_victims`):
`ChunkList.chunk_to_move_out_for_room_making` (`client.chunk_list` is not
among the provided files) scans the chunks resident on the target device,
drops any chunk with a COMPUTE range, orders the rest by ascending recency
and accumulates them until their combined bytes meet the need. -/
def chunkToMoveOutForRoomMaking (s : HybridPSClient) (needBytes : Nat)
    (target : Device) : Except PSError (List Nat) :=
  pickVictims
    (sortByTime (s.chunks.filter
      (fun p => decide (p.2.device = target) && ! p.2.hasCompute)))
    needBytes

/-- The alternate tier of the two-tier model (`src/client/client.py` lines
110-112): host when the target is an accelerator, `cuda:0` otherwise. -/
def altDevice (target : Device) : Device :=
  if target.devType = DevType.cuda then Device.cpu0 else Device.cuda0

/-- The eviction loop of `prepare_device` (`src/client/client.py` lines
114-116): move every listed chunk to the given device, in order. -/
def moveAll (l : List Nat) (d : Device) (s : HybridPSClient) : HybridPSClient :=
  match l with
  | [] => s
  | idx :: rest => moveAll rest d (chunkMove s idx d)

/-- `HybridPSClient.prepare_device` (`src/client/client.py` lines 72-116):
fail when the request exceeds the device's total capacity; return untouched
when the device already has room; otherwise pick eviction victims for the
deficit and move each of them to the alternate tier. -/
def prepareDevice (s : HybridPSClient) (target : Device) (needBytes : Nat) :
    Except PSError HybridPSClient :=
  if s.manager.maxMem target < needBytes then
    Except.error PSError.UnsatisfiableAllocation
  else
    let avail := s.manager.availableMem target
    if needBytes ≤ avail then Except.ok s
    else
      match chunkToMoveOutForRoomMaking s (needBytes - avail) target with
      | Except.error e => Except.error e
      | Except.ok movedList =>
          Except.ok (moveAll movedList (altDevice target) s)

/-- `param.ps_data_id` or `param.ps_grad_id` depending on the access kind. -/
def tensorIdOf (p : PSParam) : AccessType → Option Nat
  | AccessType.DATA => p.psDataId
  | AccessType.GRAD => p.psGradId

/-- The chunk backing `param.ps_data_tensor` / `param.ps_grad_tensor`. -/
def viewOf (p : PSParam) : AccessType → Option Nat
  | AccessType.DATA => p.psDataTensor
  | AccessType.GRAD => p.psGradTensor

/-- `param.data_status` or `param.grad_status`. -/
def statusOf (p : PSParam) : AccessType → PSTensorStatus
  | AccessType.DATA => p.dataStatus
  | AccessType.GRAD => p.gradStatus

/-- The admission-and-move step of `access` (`src/client/client.py` lines
161-166): when the compute device differs from the view's current device,
make room for the chunk's full byte size on the compute device and move the
chunk there. -/
def accessMoveStep (s : HybridPSClient) (computeDevice currentDevice : Device)
    (chunkId : Nat) : Except PSError HybridPSClient :=
  if computeDevice = currentDevice then Except.ok s
  else
    match lookupChunk s chunkId with
    | none => Except.error PSError.LookupFailed
    | some ch =>
        match prepareDevice s computeDevice ch.bytes with
        | Except.error e => Except.error e
        | Except.ok s₂ => Except.ok (chunkMove s₂ chunkId computeDevice)

/-- The gradient branch's zero-filled data placeholder (`src/client/client.py`
lines 188-194): when the parameter's data status is not COMPUTE, its data
handle is replaced by `torch.zeros(ps_shape, device=grad device)`. -/
def gradPlaceholder (p : PSParam) (gradDevice : Device) : PSParam :=
  if p.dataStatus ≠ PSTensorStatus.COMPUTE then
    { p with data := DataHandle.zeroBuffer (psNumel p) gradDevice }
  else p

/-- The status-update tail of `access` (`src/client/client.py` lines
168-199), after the chunk has been moved and touched: bind the external
view, mark the parameter and the chunk's range COMPUTE; the gradient kind
additionally applies `gradPlaceholder` and the `assert` of line 196. -/
def accessFinish (s₄ : HybridPSClient) (p : PSParam) (at_ : AccessType)
    (tid chunkId viewChunk : Nat) : Except PSError (HybridPSClient × PSParam) :=
  match at_ with
  | AccessType.DATA =>
      Except.ok (setTensorStatus s₄ chunkId tid PSTensorStatus.COMPUTE,
        { p with
          dataStatus := PSTensorStatus.COMPUTE,
          data := DataHandle.chunkView viewChunk })
  | AccessType.GRAD =>
      match (lookupChunk s₄ viewChunk).map Chunk.device with
      | none => Except.error PSError.LookupFailed
      | some gradDevice =>
          if handleDevice s₄ (gradPlaceholder p gradDevice).data ≠ some gradDevice then
            Except.error PSError.AssertionFailed
          else
            Except.ok (setTensorStatus s₄ chunkId tid PSTensorStatus.COMPUTE,
              { gradPlaceholder p gradDevice with
                gradStatus := PSTensorStatus.COMPUTE,
                grad := some (DataHandle.chunkView viewChunk) })

/-- Tail of `access` (`src/client/client.py` lines 154-199) once the hosting
chunk id is known and the ps tensor view exists: read the view's current
device, prepare room on and move to the compute device when they differ
(`accessMoveStep`), touch the chunk, then `accessFinish`. -/
def accessBind (s : HybridPSClient) (p : PSParam) (at_ : AccessType)
    (computeDevice : Device) (tid chunkId viewChunk : Nat) :
    Except PSError (HybridPSClient × PSParam) :=
  match (lookupChunk s viewChunk).map Chunk.device with
  | none => Except.error PSError.LookupFailed
  | some currentDevice =>
      match accessMoveStep s computeDevice currentDevice chunkId with
      | Except.error e => Except.error e
      | Except.ok s₃ =>
          accessFinish (touchChunk s₃ chunkId) p at_ tid chunkId viewChunk

/-- `HybridPSClient.access` (`src/client/client.py` lines 118-199).  Raises
`NotManaged` on a parameter that was never registered; resolves the tensor's
chunk through the index, allocating a fresh chunk range when the tensor has
none (for example after its FREE chunk was reclaimed); then `accessBind`. -/
def access (s : HybridPSClient) (p : PSParam) (at_ : AccessType)
    (computeDevice : Device) : Except PSError (HybridPSClient × PSParam) :=
  if ! isPsParam p then Except.error PSError.NotManaged
  else
    match tensorIdOf p at_ with
    | none => Except.error PSError.AttributeMissing
    | some tid =>
        match tensorIdToChunkId s tid with
        | some cid =>
            match viewOf p at_ with
            | none => Except.error PSError.AttributeMissing
            | some viewChunk => accessBind s p at_ computeDevice tid cid viewChunk
        | none =>
            let r := newTensor s p.psShape p.dtype tid
            let p₁ :=
              match at_ with
              | AccessType.DATA => { p with psDataTensor := some r.2 }
              | AccessType.GRAD => { p with psGradTensor := some r.2 }
            accessBind r.1 p₁ at_ computeDevice tid r.2 r.2

/-- Modelled from the spec (section 4.2 `reclaim_dead_chunks`):
`ChunkList.delete_free_chunks` (`client.chunk_list` is not among the
provided files) removes every chunk whose every range is FREE, releases its
device reservation and deletes its tensor-index entries. -/
def deleteFreeChunks (s : HybridPSClient) : HybridPSClient :=
  let dead := s.chunks.filter (fun q => q.2.allFree)
  let deadIds := dead.map Prod.fst
  { s with
    chunks := s.chunks.filter (fun q => ! q.2.allFree),
    chunkTensorIndex := s.chunkTensorIndex.filter
      (fun e => ! deadIds.contains e.2),
    manager := dead.foldl (fun m q => m.releaseMem q.2.device q.2.bytes) s.manager }

/-- `HybridPSClient.release` (`src/client/client.py` lines 209-235): when
the tensor has no hosting chunk, return at once (line 220-221); otherwise
set the range's status to `reset_to_status`, redirect `param.data` to a
fresh one-element zero buffer (data kind, line 226) or set `param.grad` to
`None` (grad kind, line 231), mirror the status on the parameter, and
reclaim the chunks that are now entirely FREE. -/
def release (s : HybridPSClient) (p : PSParam) (at_ : AccessType)
    (resetStatus : PSTensorStatus) : Except PSError (HybridPSClient × PSParam) :=
  match tensorIdOf p at_ with
  | none => Except.error PSError.AttributeMissing
  | some tid =>
      match tensorIdToChunkId s tid with
      | none => Except.ok (s, p)
      | some cid =>
          match at_ with
          | AccessType.DATA =>
              match handleDevice s p.data with
              | none => Except.error PSError.LookupFailed
              | some dev =>
                  let s₁ := setTensorStatus s cid tid resetStatus
                  let p₁ := { p with
                    data := DataHandle.zeroBuffer 1 dev,
                    dataStatus := resetStatus }
                  Except.ok (deleteFreeChunks s₁, p₁)
          | AccessType.GRAD =>
              let s₁ := setTensorStatus s cid tid resetStatus
              let p₁ := { p with grad := none, gradStatus := resetStatus }
              Except.ok (deleteFreeChunks s₁, p₁)

/-- `HybridPSClient._init_ps_param` (`src/client/client.py` lines 309-330):
no-op on an already-registered parameter; otherwise record shape data, set
both statuses to `FREE`, and assign fresh identifiers (a gradient identifier
only when the parameter requires a gradient), with the ps tensor attributes
initialised to `None`.  (`generate_id` hands out `0, 1, 2, ...`: the Python
counter starts at `-1` and is pre-incremented.) -/
def initPsParam (s : HybridPSClient) (p : PSParam) :
    HybridPSClient × PSParam :=
  if isPsParam p then (s, p)
  else
    let p₁ := { p with
      dataStatus := PSTensorStatus.FREE,
      gradStatus := PSTensorStatus.FREE }
    let r₂ :=
      if p₁.psDataId.isNone then
        ({ s with nextPsId := s.nextPsId + 1 },
         { p₁ with psDataId := some s.nextPsId, psDataTensor := none })
      else (s, p₁)
    if r₂.2.psGradId.isNone ∧ r₂.2.requiresGrad then
      ({ r₂.1 with nextPsId := r₂.1.nextPsId + 1 },
       { r₂.2 with psGradId := some r₂.1.nextPsId, psGradTensor := none })
    else r₂

/-- `HybridPSClient._convert_to_ps_data` (`src/client/client.py` lines
287-296): allocate chunk space for the parameter's data (a torch parameter's
`.data` is always materialised, so the Python `if param.data is not None`
guard is always taken), copy the payload in (payload bytes are outside the
model), point `param.data` at the new view and set the status to `HOLD`.
Reading `param.ps_data_id` on an unregistered parameter is Python's
`AttributeError`. -/
def convertToPsData (s : HybridPSClient) (p : PSParam) :
    Except PSError (HybridPSClient × PSParam) :=
  match p.psDataId with
  | none => Except.error PSError.AttributeMissing
  | some tid =>
      let r := newTensor s p.psShape p.dtype tid
      Except.ok (r.1, { p with
        psDataTensor := some r.2,
        data := DataHandle.chunkView r.2,
        dataStatus := PSTensorStatus.HOLD })

/-- `HybridPSClient._convert_to_ps_grad` (`src/client/client.py` lines
298-307): as for data, but guarded by `param.grad is not None` and binding
the gradient attributes. -/
def convertToPsGrad (s : HybridPSClient) (p : PSParam) :
    Except PSError (HybridPSClient × PSParam) :=
  match p.grad with
  | none => Except.ok (s, p)
  | some _ =>
      match p.psGradId with
      | none => Except.error PSError.AttributeMissing
      | some tid =>
          let r := newTensor s p.psShape p.dtype tid
          Except.ok (r.1, { p with
            psGradTensor := some r.2,
            grad := some (DataHandle.chunkView r.2),
            gradStatus := PSTensorStatus.HOLD })

/-- `HybridPSClient.register_param` (`src/client/client.py` lines 354-362):
initialise the ps attributes then convert data and gradient payloads. -/
def registerParam (s : HybridPSClient) (p : PSParam) :
    Except PSError (HybridPSClient × PSParam) :=
  let r := initPsParam s p
  match convertToPsData r.1 r.2 with
  | Except.error e => Except.error e
  | Except.ok r₂ =>
      match convertToPsGrad r₂.1 r₂.2 with
      | Except.error e => Except.error e
      | Except.ok r₃ => Except.ok r₃

/-! ### Derived projections and concrete fixtures -/

/-- Projection of a chunk to the components a device move never changes. -/
def chunkShape (c : Chunk) : Nat × DataType × List TensorInfo × Nat :=
  (c.capacity, c.dataType, c.tensorInfoList, c.timestamp)

/-- The caller-facing view bound by an access: `param.data` for the data
kind, `param.grad` for the gradient kind. -/
def externalView (p : PSParam) : AccessType → Option DataHandle
  | AccessType.DATA => some p.data
  | AccessType.GRAD => p.grad

def chunkA : Chunk :=
  ⟨10, DataType.float, Device.cuda0, [⟨0, 0, 4, PSTensorStatus.HOLD⟩], 0⟩

def managerA : HybridPSManager :=
  ⟨[(Device.cpu0, 1000), (Device.cuda0, 100)],
   [(Device.cpu0, 0), (Device.cuda0, 40)]⟩

def clientA : HybridPSClient :=
  ⟨10, Device.cpu0, [(0, chunkA)], 1, [(0, 0)], 1, managerA, 0⟩

def paramA : PSParam :=
  ⟨some 0, none, PSTensorStatus.HOLD, PSTensorStatus.FREE, [4],
   DataType.float, false, some 0, none, DataHandle.chunkView 0, none⟩

def chunkA5 : Chunk :=
  ⟨10, DataType.float, Device.cuda0, [⟨0, 0, 4, PSTensorStatus.COMPUTE⟩], 1⟩

def clientA5 : HybridPSClient :=
  ⟨10, Device.cpu0, [(0, chunkA5)], 1, [(0, 0)], 1, managerA, 1⟩

def paramA5 : PSParam :=
  ⟨some 0, none, PSTensorStatus.COMPUTE, PSTensorStatus.FREE, [4],
   DataType.float, false, some 0, none, DataHandle.chunkView 0, none⟩

def paramFresh : PSParam :=
  ⟨none, none, PSTensorStatus.HOLD, PSTensorStatus.HOLD, [4],
   DataType.float, true, none, none, DataHandle.rawBuffer Device.cpu0, none⟩

def chunkDead : Chunk :=
  ⟨10, DataType.float, Device.cuda0, [⟨0, 0, 4, PSTensorStatus.FREE⟩], 0⟩

def clientDead : HybridPSClient :=
  ⟨10, Device.cpu0, [(0, chunkDead)], 1, [(0, 0)], 1, managerA, 0⟩

def paramU : PSParam :=
  ⟨some 9, some 5, PSTensorStatus.HOLD, PSTensorStatus.HOLD, [4],
   DataType.float, true, none, none, DataHandle.rawBuffer Device.cpu0, none⟩

def clientA7 : HybridPSClient :=
  ⟨10, Device.cpu0, [], 1, [], 1,
   ⟨[(Device.cpu0, 1000), (Device.cuda0, 100)],
    [(Device.cpu0, 0), (Device.cuda0, 0)]⟩, 0⟩

def paramA7 : PSParam :=
  ⟨some 0, none, PSTensorStatus.FREE, PSTensorStatus.FREE, [4],
   DataType.float, false, some 0, none,
   DataHandle.zeroBuffer 1 Device.cuda0, none⟩

def paramG : PSParam :=
  ⟨some 2, some 0, PSTensorStatus.HOLD, PSTensorStatus.FREE, [4],
   DataType.float, true, none, some 0, DataHandle.rawBuffer Device.cpu0, none⟩

def managerC : HybridPSManager :=
  ⟨[(Device.cpu0, 1000), (Device.cuda0, 100)],
   [(Device.cpu0, 0), (Device.cuda0, 80)]⟩

def clientC : HybridPSClient :=
  ⟨10, Device.cpu0, [(0, chunkA)], 1, [(0, 0)], 1, managerC, 0⟩

def chunkD : Chunk :=
  ⟨10, DataType.float, Device.cuda0,
   [⟨0, 0, 4, PSTensorStatus.HOLD⟩, ⟨1, 4, 4, PSTensorStatus.HOLD⟩], 0⟩

def clientD : HybridPSClient :=
  ⟨10, Device.cpu0, [(0, chunkD)], 1, [(0, 0), (1, 0)], 2, managerA, 0⟩

def paramD : PSParam :=
  ⟨some 0, some 1, PSTensorStatus.HOLD, PSTensorStatus.HOLD, [4],
   DataType.float, true, some 0, some 0, DataHandle.chunkView 0,
   some (DataHandle.chunkView 0)⟩

/-! ### Association-list lemmas -/

theorem lookupAssoc_updateAssoc_self {α : Type} (l : List (Nat × α)) (k : Nat)
    (f : α → α) : lookupAssoc (updateAssoc l k f) k = (lookupAssoc l k).map f := by
  induction l with
  | nil => rfl
  | cons h t ih =>
      obtain ⟨k', v⟩ := h
      by_cases hk : k' = k
      · simp [lookupAssoc, updateAssoc, hk]
      · simp [lookupAssoc, updateAssoc, hk, ih]

theorem lookupAssoc_updateAssoc_ne {α : Type} (l : List (Nat × α)) (k j : Nat)
    (f : α → α) (h : j ≠ k) :
    lookupAssoc (updateAssoc l k f) j = lookupAssoc l j := by
  induction l with
  | nil => rfl
  | cons hd t ih =>
      obtain ⟨k', v⟩ := hd
      by_cases hj : k' = j
      · subst hj
        simp [lookupAssoc, updateAssoc, h]
      · by_cases hk : k' = k <;>
          simp [lookupAssoc, updateAssoc, hk, hj, Ne.symm h, ih]

theorem lookupAssoc_mem {α : Type} {l : List (Nat × α)} {k : Nat} {v : α}
    (h : lookupAssoc l k = some v) : (k, v) ∈ l := by
  induction l with
  | nil => simp [lookupAssoc] at h
  | cons hd t ih =>
      obtain ⟨k', v'⟩ := hd
      by_cases hk : k' = k
      · subst hk
        simp [lookupAssoc] at h
        simp [h]
      · simp [lookupAssoc, hk] at h
        exact List.mem_cons_of_mem _ (ih h)

theorem lookupAssoc_isSome_of_mem {α : Type} {l : List (Nat × α)} {k : Nat}
    {v : α} (h : (k, v) ∈ l) : (lookupAssoc l k).isSome := by
  induction l with
  | nil => simp at h
  | cons hd t ih =>
      obtain ⟨k', v'⟩ := hd
      by_cases hk : k' = k
      · simp [lookupAssoc, hk]
      · rcases List.mem_cons.mp h with h1 | h1
        · cases h1
          simp at hk
        · simp [lookupAssoc, hk]
          exact ih h1

theorem lookupAssoc_of_mem_nodup {α : Type} {l : List (Nat × α)} {k : Nat}
    {v : α} (hnd : (l.map Prod.fst).Nodup) (h : (k, v) ∈ l) :
    lookupAssoc l k = some v := by
  induction l with
  | nil => simp at h
  | cons hd t ih =>
      obtain ⟨k', v'⟩ := hd
      simp only [List.map_cons, List.nodup_cons] at hnd
      rcases List.mem_cons.mp h with h1 | h1
      · cases h1
        simp [lookupAssoc]
      · by_cases hk : k' = k
        · subst hk
          exact absurd (List.mem_map_of_mem Prod.fst h1) hnd.1
        · simp [lookupAssoc, hk]
          exact ih hnd.2 h1

theorem mem_updateAssoc {α : Type} {l : List (Nat × α)} {k : Nat} {f : α → α}
    {v : α} (h : (k, v) ∈ updateAssoc l k f) :
    ∃ v₀, (k, v₀) ∈ l ∧ v = f v₀ := by
  induction l with
  | nil => simp [updateAssoc] at h
  | cons hd t ih =>
      obtain ⟨k', v'⟩ := hd
      by_cases hk : k' = k
      · subst hk
        simp only [updateAssoc, if_pos rfl] at h
        rcases List.mem_cons.mp h with h1 | h1
        · exact ⟨v', List.mem_cons_self _ _, (Prod.mk.injEq _ _ _ _ ▸ h1).2⟩
        · obtain ⟨v₀, hv₀, hfe⟩ := ih h1
          exact ⟨v₀, List.mem_cons_of_mem _ hv₀, hfe⟩
      · simp only [updateAssoc, if_neg hk] at h
        rcases List.mem_cons.mp h with h1 | h1
        · exact absurd ((Prod.mk.injEq _ _ _ _ ▸ h1).1.symm) hk
        · obtain ⟨v₀, hv₀, hfe⟩ := ih h1
          exact ⟨v₀, List.mem_cons_of_mem _ hv₀, hfe⟩

theorem updateAssoc_keys {α : Type} (l : List (Nat × α)) (k : Nat)
    (f : α → α) : (updateAssoc l k f).map Prod.fst = l.map Prod.fst := by
  induction l with
  | nil => rfl
  | cons hd t ih =>
      obtain ⟨k', v'⟩ := hd
      by_cases hk : k' = k <;> simp [updateAssoc, hk, ih]

/-! ### Chunk-operation lemmas -/

theorem lookupChunk_def (s : HybridPSClient) (j : Nat) :
    lookupChunk s j = lookupAssoc s.chunks j := rfl

theorem chunkMove_shape (s : HybridPSClient) (cid : Nat) (d : Device)
    (j : Nat) : (lookupChunk (chunkMove s cid d) j).map chunkShape
      = (lookupChunk s j).map chunkShape := by
  unfold chunkMove
  cases hc : lookupChunk s cid with
  | none => rfl
  | some c =>
      by_cases hd : c.device = d
      · simp [hd]
      · simp only [hd, if_neg hd]
        by_cases hj : j = cid
        · subst hj
          show (lookupAssoc (updateAssoc s.chunks j _) j).map chunkShape = _
          rw [lookupAssoc_updateAssoc_self, Option.map_map]
          rfl
        · show (lookupAssoc (updateAssoc s.chunks cid _) j).map chunkShape = _
          rw [lookupAssoc_updateAssoc_ne _ _ _ _ hj]
          rfl

theorem chunkMove_globalTime (s : HybridPSClient) (cid : Nat) (d : Device) :
    (chunkMove s cid d).globalTime = s.globalTime := by
  unfold chunkMove
  cases lookupChunk s cid with
  | none => rfl
  | some c => by_cases hd : c.device = d <;> simp [hd]

theorem chunkMove_index (s : HybridPSClient) (cid : Nat) (d : Device) :
    (chunkMove s cid d).chunkTensorIndex = s.chunkTensorIndex := by
  unfold chunkMove
  cases lookupChunk s cid with
  | none => rfl
  | some c => by_cases hd : c.device = d <;> simp [hd]

theorem chunkMove_dev_preserve (s : HybridPSClient) (cid k : Nat) (d : Device)
    (h : (lookupChunk s cid).map Chunk.device = some d) :
    (lookupChunk (chunkMove s k d) cid).map Chunk.device = some d := by
  unfold chunkMove
  cases hc : lookupChunk s k with
  | none => exact h
  | some c =>
      by_cases hd : c.device = d
      · simpa [hd] using h
      · simp only [hd, if_neg hd]
        by_cases hj : cid = k
        · subst hj
          show (lookupAssoc (updateAssoc s.chunks cid _) cid).map Chunk.device = _
          rw [lookupAssoc_updateAssoc_self, ← lookupChunk_def, Option.map_map]
          cases hcc : lookupChunk s cid with
          | none => rw [hcc] at h; simp at h
          | some c' => rfl
        · show (lookupAssoc (updateAssoc s.chunks k _) cid).map Chunk.device = _
          rw [lookupAssoc_updateAssoc_ne _ _ _ _ hj]
          exact h

theorem chunkMove_dev_self (s : HybridPSClient) (cid : Nat) (d : Device)
    (h : (lookupChunk s cid).isSome) :
    (lookupChunk (chunkMove s cid d) cid).map Chunk.device = some d := by
  unfold chunkMove
  cases hc : lookupChunk s cid with
  | none => rw [hc] at h; simp at h
  | some c =>
      by_cases hd : c.device = d
      · simp [hd, hc]
      · simp only [hd, if_neg hd]
        show (lookupAssoc (updateAssoc s.chunks cid _) cid).map Chunk.device = _
        rw [lookupAssoc_updateAssoc_self, ← lookupChunk_def, hc]
        rfl

theorem moveAll_shape (l : List Nat) (d : Device) (s : HybridPSClient)
    (j : Nat) : (lookupChunk (moveAll l d s) j).map chunkShape
      = (lookupChunk s j).map chunkShape := by
  induction l generalizing s with
  | nil => rfl
  | cons x xs ih => rw [moveAll, ih, chunkMove_shape]

theorem moveAll_globalTime (l : List Nat) (d : Device) (s : HybridPSClient) :
    (moveAll l d s).globalTime = s.globalTime := by
  induction l generalizing s with
  | nil => rfl
  | cons x xs ih => rw [moveAll, ih, chunkMove_globalTime]

theorem moveAll_index (l : List Nat) (d : Device) (s : HybridPSClient) :
    (moveAll l d s).chunkTensorIndex = s.chunkTensorIndex := by
  induction l generalizing s with
  | nil => rfl
  | cons x xs ih => rw [moveAll, ih, chunkMove_index]

theorem moveAll_dev_preserve (l : List Nat) (d : Device) (s : HybridPSClient)
    (cid : Nat) (h : (lookupChunk s cid).map Chunk.device = some d) :
    (lookupChunk (moveAll l d s) cid).map Chunk.device = some d := by
  induction l generalizing s with
  | nil => exact h
  | cons x xs ih => exact ih _ (chunkMove_dev_preserve _ _ _ _ h)

theorem isSome_of_shape_eq {o o' : Option Chunk}
    (h : o.map chunkShape = o'.map chunkShape) : o.isSome = o'.isSome := by
  cases o <;> cases o' <;> simp_all

theorem moveAll_dev_self (l : List Nat) (d : Device) (s : HybridPSClient)
    (cid : Nat) (hmem : cid ∈ l) (h : (lookupChunk s cid).isSome) :
    (lookupChunk (moveAll l d s) cid).map Chunk.device = some d := by
  induction l generalizing s with
  | nil => simp at hmem
  | cons x xs ih =>
      rw [moveAll]
      rcases List.mem_cons.mp hmem with h1 | h1
      · subst h1
        exact moveAll_dev_preserve _ _ _ _ (chunkMove_dev_self _ _ _ h)
      · refine ih _ h1 ?_
        rw [← isSome_of_shape_eq (chunkMove_shape s x d cid)] at h
        exact h

theorem prepareDevice_ok_state (s : HybridPSClient) (t : Device) (n : Nat)
    (s' : HybridPSClient) (h : prepareDevice s t n = Except.ok s') :
    (∀ j, (lookupChunk s' j).map chunkShape = (lookupChunk s j).map chunkShape)
    ∧ s'.globalTime = s.globalTime
    ∧ s'.chunkTensorIndex = s.chunkTensorIndex := by
  unfold prepareDevice at h
  by_cases h1 : s.manager.maxMem t < n
  · simp [h1] at h
  · simp only [h1, if_false, if_neg h1] at h
    by_cases h2 : n ≤ s.manager.availableMem t
    · simp only [h2, if_pos h2] at h
      cases h
      exact ⟨fun j => rfl, rfl, rfl⟩
    · simp only [h2, if_neg h2] at h
      cases hv : chunkToMoveOutForRoomMaking s (n - s.manager.availableMem t) t with
      | error e => rw [hv] at h; cases h
      | ok moved =>
          rw [hv] at h
          cases h
          exact ⟨fun j => moveAll_shape _ _ _ _, moveAll_globalTime _ _ _,
            moveAll_index _ _ _⟩

theorem touchChunk_lookup_self (s : HybridPSClient) (cid : Nat) :
    lookupChunk (touchChunk s cid) cid
      = (lookupChunk s cid).map (fun c => { c with timestamp := s.globalTime + 1 }) := by
  show lookupAssoc (updateAssoc s.chunks cid _) cid = _
  rw [lookupAssoc_updateAssoc_self]
  rfl

theorem touchChunk_globalTime (s : HybridPSClient) (cid : Nat) :
    (touchChunk s cid).globalTime = s.globalTime + 1 := rfl

theorem setTensorStatus_lookup_self (s : HybridPSClient) (cid tid : Nat)
    (st : PSTensorStatus) :
    lookupChunk (setTensorStatus s cid tid st) cid
      = (lookupChunk s cid).map
          (fun c => { c with tensorInfoList := setStatusInfoList c.tensorInfoList tid st }) := by
  show lookupAssoc (updateAssoc s.chunks cid _) cid = _
  rw [lookupAssoc_updateAssoc_self]
  rfl

theorem find_setStatusInfoList (l : List TensorInfo) (tid : Nat)
    (st : PSTensorStatus)
    (h : (l.find? (fun t => decide (t.tensorId = tid))).isSome) :
    ((setStatusInfoList l tid st).find?
        (fun t => decide (t.tensorId = tid))).map TensorInfo.status = some st := by
  induction l with
  | nil => simp [List.find?] at h
  | cons t rest ih =>
      by_cases ht : t.tensorId = tid
      · have hs : setStatusInfoList (t :: rest) tid st
            = { t with status := st } :: setStatusInfoList rest tid st := by
          simp [setStatusInfoList, ht]
        rw [hs, List.find?_cons_of_pos _ (by simp [ht])]
        rfl
      · have hs : setStatusInfoList (t :: rest) tid st
            = t :: setStatusInfoList rest tid st := by
          simp [setStatusInfoList, ht]
        rw [List.find?_cons_of_neg _ (by simp [ht])] at h
        rw [hs, List.find?_cons_of_neg _ (by simp [ht])]
        exact ih h

theorem tensorStatusIn_set (c : Chunk) (tid : Nat) (st : PSTensorStatus)
    (h : (tensorStatusIn c tid).isSome) :
    tensorStatusIn
      { c with tensorInfoList := setStatusInfoList c.tensorInfoList tid st } tid
      = some st := by
  apply find_setStatusInfoList
  unfold tensorStatusIn at h
  cases hf : c.tensorInfoList.find? (fun t => decide (t.tensorId = tid)) with
  | none => rw [hf] at h; simp at h
  | some a => simp [hf]

/-! ### Error-classification lemmas -/

theorem pickVictims_error (l : List (Nat × Chunk)) (n : Nat) (e : PSError)
    (h : pickVictims l n = Except.error e) :
    e = PSError.InsufficientEvictableMemory := by
  induction l generalizing n with
  | nil =>
      cases n with
      | zero => simp [pickVictims] at h
      | succ m =>
          simp only [pickVictims] at h
          cases h
          rfl
  | cons x xs ih =>
      cases n with
      | zero => simp [pickVictims] at h
      | succ m =>
          obtain ⟨cid, c⟩ := x
          simp only [pickVictims] at h
          cases hr : pickVictims xs (m + 1 - c.bytes) with
          | ok tail => rw [hr] at h; simp [Except.map] at h
          | error e' =>
              rw [hr] at h
              simp only [Except.map] at h
              cases h
              exact ih _ hr

theorem prepareDevice_error (s : HybridPSClient) (t : Device) (n : Nat)
    (e : PSError) (h : prepareDevice s t n = Except.error e) :
    e = PSError.UnsatisfiableAllocation
    ∨ e = PSError.InsufficientEvictableMemory := by
  unfold prepareDevice at h
  by_cases h1 : s.manager.maxMem t < n
  · rw [if_pos h1] at h
    cases h
    exact Or.inl rfl
  · rw [if_neg h1] at h
    by_cases h2 : n ≤ s.manager.availableMem t
    · simp [h2] at h
    · rw [if_neg h2] at h
      cases hv : chunkToMoveOutForRoomMaking s (n - s.manager.availableMem t) t with
      | ok moved => rw [hv] at h; cases h
      | error e' =>
          rw [hv] at h
          cases h
          exact Or.inr (pickVictims_error _ _ _ hv)

theorem accessMoveStep_error (s : HybridPSClient) (cd cur : Device)
    (cid : Nat) (e : PSError)
    (h : accessMoveStep s cd cur cid = Except.error e) :
    e = PSError.LookupFailed ∨ e = PSError.UnsatisfiableAllocation
    ∨ e = PSError.InsufficientEvictableMemory := by
  unfold accessMoveStep at h
  by_cases hd : cd = cur
  · rw [if_pos hd] at h
    cases h
  · rw [if_neg hd] at h
    cases hc : lookupChunk s cid with
    | none => rw [hc] at h; cases h; exact Or.inl rfl
    | some ch =>
        rw [hc] at h
        simp only [] at h
        cases hp : prepareDevice s cd ch.bytes with
        | error e' =>
            rw [hp] at h
            cases h
            rcases prepareDevice_error _ _ _ _ hp with h1 | h1
            · exact Or.inr (Or.inl h1)
            · exact Or.inr (Or.inr h1)
        | ok s₂ => rw [hp] at h; cases h

theorem accessFinish_error (s₄ : HybridPSClient) (p : PSParam)
    (at_ : AccessType) (tid cid vc : Nat) (e : PSError)
    (h : accessFinish s₄ p at_ tid cid vc = Except.error e) :
    e = PSError.LookupFailed ∨ e = PSError.AssertionFailed := by
  unfold accessFinish at h
  cases at_ with
  | DATA => cases h
  | GRAD =>
      cases hg : (lookupChunk s₄ vc).map Chunk.device with
      | none => rw [hg] at h; cases h; exact Or.inl rfl
      | some gd =>
          rw [hg] at h
          simp only [] at h
          by_cases ha : handleDevice s₄ (gradPlaceholder p gd).data ≠ some gd
          · rw [if_pos ha] at h
            cases h
            exact Or.inr rfl
          · rw [if_neg ha] at h
            cases h

theorem accessBind_ne_notManaged (s : HybridPSClient) (p : PSParam)
    (at_ : AccessType) (d : Device) (tid cid vc : Nat) :
    accessBind s p at_ d tid cid vc ≠ Except.error PSError.NotManaged := by
  intro h
  unfold accessBind at h
  cases hcur : (lookupChunk s vc).map Chunk.device with
  | none => rw [hcur] at h; cases h
  | some cur =>
      rw [hcur] at h
      simp only [] at h
      cases hm : accessMoveStep s d cur cid with
      | error e =>
          rw [hm] at h
          cases h
          rcases accessMoveStep_error _ _ _ _ _ hm with h1 | h1 | h1 <;> cases h1
      | ok s₃ =>
          rw [hm] at h
          rcases accessFinish_error _ _ _ _ _ _ _ h with h1 | h1 <;> cases h1

/-! ### Victim-selection membership lemmas -/

theorem insertByTime_mem {x c : Nat × Chunk} {l : List (Nat × Chunk)}
    (h : x ∈ insertByTime c l) : x = c ∨ x ∈ l := by
  induction l with
  | nil => simp only [insertByTime, List.mem_singleton] at h; exact Or.inl h
  | cons y ys ih =>
      unfold insertByTime at h
      by_cases ht : c.2.timestamp ≤ y.2.timestamp
      · rw [if_pos ht] at h
        rcases List.mem_cons.mp h with h1 | h1
        · exact Or.inl h1
        · exact Or.inr h1
      · rw [if_neg ht] at h
        rcases List.mem_cons.mp h with h1 | h1
        · exact Or.inr (h1 ▸ List.mem_cons_self _ _)
        · rcases ih h1 with h2 | h2
          · exact Or.inl h2
          · exact Or.inr (List.mem_cons_of_mem _ h2)

theorem sortByTime_mem {x : Nat × Chunk} {l : List (Nat × Chunk)}
    (h : x ∈ sortByTime l) : x ∈ l := by
  induction l with
  | nil => simp [sortByTime] at h
  | cons y ys ih =>
      unfold sortByTime at h
      rcases insertByTime_mem h with h1 | h1
      · exact h1 ▸ List.mem_cons_self _ _
      · exact List.mem_cons_of_mem _ (ih h1)

theorem pickVictims_ok_mem {l : List (Nat × Chunk)} {n : Nat}
    {ids : List Nat} (h : pickVictims l n = Except.ok ids) {cid : Nat}
    (hm : cid ∈ ids) : ∃ c, (cid, c) ∈ l := by
  induction l generalizing n ids with
  | nil =>
      cases n with
      | zero => simp only [pickVictims] at h; cases h; simp at hm
      | succ m => simp only [pickVictims] at h; cases h
  | cons x xs ih =>
      obtain ⟨k, c⟩ := x
      cases n with
      | zero => simp only [pickVictims] at h; cases h; simp at hm
      | succ m =>
          simp only [pickVictims] at h
          cases hr : pickVictims xs (m + 1 - c.bytes) with
          | error e => rw [hr] at h; simp [Except.map] at h
          | ok tail =>
              rw [hr] at h
              simp only [Except.map] at h
              cases h
              rcases List.mem_cons.mp hm with h1 | h1
              · exact ⟨c, h1 ▸ List.mem_cons_self _ _⟩
              · obtain ⟨c', hc'⟩ := ih hr h1
                exact ⟨c', List.mem_cons_of_mem _ hc'⟩

theorem chunkToMoveOut_ok_mem {s : HybridPSClient} {need : Nat}
    {target : Device} {victims : List Nat}
    (h : chunkToMoveOutForRoomMaking s need target = Except.ok victims)
    {cid : Nat} (hm : cid ∈ victims) :
    ∃ c, (cid, c) ∈ s.chunks ∧ c.device = target ∧ c.hasCompute = false := by
  obtain ⟨c, hc⟩ := pickVictims_ok_mem h hm
  have hmem := sortByTime_mem hc
  rw [List.mem_filter] at hmem
  obtain ⟨h1, h2⟩ := hmem
  simp only [Bool.and_eq_true, Bool.not_eq_true', decide_eq_true_eq] at h2
  exact ⟨c, h1, h2.1, h2.2⟩

/-! ### Claim theorems: prepare_device -/

/-- C1: when `need_bytes` exceeds the total capacity of the target device as
reported by the registry, `prepare_device` fails fatally (the spec's
`UnsatisfiableAllocation`; the source raises at `src/client/client.py` line
89) without consulting the chunk list for eviction victims: the same error
results for every possible chunk list, and the error carries no successor
state, so chunk list, tensor index and registry are unchanged. -/
theorem prepare_device_unsatisfiable (s : HybridPSClient) (target : Device)
    (needBytes : Nat) (h : s.manager.maxMem target < needBytes) :
    prepareDevice s target needBytes
        = Except.error PSError.UnsatisfiableAllocation
    ∧ ∀ cl : List (Nat × Chunk),
        prepareDevice { s with chunks := cl } target needBytes
          = Except.error PSError.UnsatisfiableAllocation := by
  constructor
  · unfold prepareDevice
    rw [if_pos h]
  · intro cl
    unfold prepareDevice
    dsimp only
    rw [if_pos h]

/-- Witness for C1: on a concrete client whose accelerator capacity is 100,
requesting 150 bytes fails with `UnsatisfiableAllocation`. -/
theorem prepare_device_unsatisfiable_witness :
    HybridPSManager.maxMem
        (HybridPSManager.mk [(Device.cuda0, 100)] [(Device.cuda0, 0)])
        Device.cuda0 < 150
    ∧ prepareDevice
        (HybridPSClient.mk 10 Device.cpu0 [] 0 [] 0
          (HybridPSManager.mk [(Device.cuda0, 100)] [(Device.cuda0, 0)]) 0)
        Device.cuda0 150
        = Except.error PSError.UnsatisfiableAllocation :=
  ⟨by decide,
    (prepare_device_unsatisfiable
      (HybridPSClient.mk 10 Device.cpu0 [] 0 [] 0
        (HybridPSManager.mk [(Device.cuda0, 100)] [(Device.cuda0, 0)]) 0)
      Device.cuda0 150 (by decide)).1⟩

/-- C2: when the request fits the device's total capacity and the available
bytes already cover it (`deficit <= 0`, `src/client/client.py` lines
93-100), `prepare_device` returns the state unchanged: no victim selection,
no chunk move, every chunk keeps its device, statuses and recency marker. -/
theorem prepare_device_enough_room (s : HybridPSClient) (target : Device)
    (needBytes : Nat) (h1 : needBytes ≤ s.manager.maxMem target)
    (h2 : needBytes ≤ s.manager.availableMem target) :
    prepareDevice s target needBytes = Except.ok s := by
  unfold prepareDevice
  rw [if_neg (Nat.not_lt.mpr h1), if_pos h2]

/-- Witness for C2: a device with capacity 100 and 60 available satisfies a
50-byte request with the state returned untouched. -/
theorem prepare_device_enough_room_witness :
    (50 ≤ HybridPSManager.maxMem
        (HybridPSManager.mk [(Device.cuda0, 100)] [(Device.cuda0, 40)])
        Device.cuda0
      ∧ 50 ≤ HybridPSManager.availableMem
        (HybridPSManager.mk [(Device.cuda0, 100)] [(Device.cuda0, 40)])
        Device.cuda0)
    ∧ prepareDevice
        (HybridPSClient.mk 10 Device.cpu0 [] 0 [] 0
          (HybridPSManager.mk [(Device.cuda0, 100)] [(Device.cuda0, 40)]) 0)
        Device.cuda0 50
        = Except.ok
          (HybridPSClient.mk 10 Device.cpu0 [] 0 [] 0
            (HybridPSManager.mk [(Device.cuda0, 100)] [(Device.cuda0, 40)]) 0) :=
  ⟨⟨by decide, by decide⟩,
    prepare_device_enough_room
      (HybridPSClient.mk 10 Device.cpu0 [] 0 [] 0
        (HybridPSManager.mk [(Device.cuda0, 100)] [(Device.cuda0, 40)]) 0)
      Device.cuda0 50 (by decide) (by decide)⟩

/-- C3: when `prepare_device` must make room (positive deficit), every
victim handed back by the chunk list's selection was resident on the target
device (and free of COMPUTE ranges), and after `prepare_device` returns each
victim is resident on the alternate tier — `cpu` when the target is an
accelerator device and `cuda:0` when the target is host
(`src/client/client.py` lines 102-116). -/
theorem prepare_device_evicts_to_alternate_tier (s : HybridPSClient)
    (target : Device) (needBytes : Nat) (victims : List Nat)
    (h1 : needBytes ≤ s.manager.maxMem target)
    (h2 : s.manager.availableMem target < needBytes)
    (hvict : chunkToMoveOutForRoomMaking s
        (needBytes - s.manager.availableMem target) target
        = Except.ok victims) :
    prepareDevice s target needBytes
        = Except.ok (moveAll victims (altDevice target) s)
    ∧ (target.devType = DevType.cuda → altDevice target = Device.cpu0)
    ∧ (target.devType = DevType.cpu → altDevice target = Device.cuda0)
    ∧ ∀ cid ∈ victims,
        (∃ c, (cid, c) ∈ s.chunks ∧ c.device = target ∧ c.hasCompute = false)
        ∧ (lookupChunk (moveAll victims (altDevice target) s) cid).map
            Chunk.device = some (altDevice target) := by
  refine ⟨?_, ?_, ?_, ?_⟩
  · unfold prepareDevice
    rw [if_neg (Nat.not_lt.mpr h1), if_neg (Nat.not_le.mpr h2), hvict]
  · intro hcuda
    unfold altDevice
    rw [if_pos hcuda]
  · intro hcpu
    unfold altDevice
    rw [if_neg (by rw [hcpu]; intro hh; cases hh)]
  · intro cid hm
    have hmem := chunkToMoveOut_ok_mem hvict hm
    refine ⟨hmem, ?_⟩
    obtain ⟨c, hc, _, _⟩ := hmem
    exact moveAll_dev_self _ _ _ _ hm (lookupAssoc_isSome_of_mem hc)


theorem chunkShape_parts {a b : Chunk} (h : chunkShape a = chunkShape b) :
    a.capacity = b.capacity ∧ a.dataType = b.dataType
    ∧ a.tensorInfoList = b.tensorInfoList ∧ a.timestamp = b.timestamp := by
  unfold chunkShape at h
  simp only [Prod.mk.injEq] at h
  exact ⟨h.1, h.2.1, h.2.2.1, h.2.2.2⟩

theorem tensorStatusIn_congr {a b : Chunk} (tid : Nat)
    (h : a.tensorInfoList = b.tensorInfoList) :
    tensorStatusIn a tid = tensorStatusIn b tid := by
  unfold tensorStatusIn
  rw [h]

theorem accessMoveStep_ok_facts (s : HybridPSClient) (dev : Device)
    (cid : Nat) (c : Chunk) (hc : lookupChunk s cid = some c)
    (s₃ : HybridPSClient)
    (hm : accessMoveStep s dev c.device cid = Except.ok s₃) :
    ∃ c₃, lookupChunk s₃ cid = some c₃ ∧ chunkShape c₃ = chunkShape c
      ∧ c₃.device = dev ∧ s₃.globalTime = s.globalTime := by
  unfold accessMoveStep at hm
  by_cases hd : dev = c.device
  · rw [if_pos hd] at hm
    cases hm
    exact ⟨c, hc, rfl, hd.symm, rfl⟩
  · rw [if_neg hd, hc] at hm
    simp only [] at hm
    cases hp : prepareDevice s dev c.bytes with
    | error e => rw [hp] at hm; cases hm
    | ok s₂ =>
        rw [hp] at hm
        cases hm
        obtain ⟨hshape, hgt, _⟩ := prepareDevice_ok_state _ _ _ _ hp
        have h2 := hshape cid
        rw [hc] at h2
        cases hl2 : lookupChunk s₂ cid with
        | none => rw [hl2] at h2; simp at h2
        | some c₂ =>
            rw [hl2] at h2
            simp only [Option.map_some', Option.some.injEq] at h2
            have hdev : (lookupChunk (chunkMove s₂ cid dev) cid).map Chunk.device
                = some dev := chunkMove_dev_self _ _ _ (by rw [hl2]; rfl)
            have hsh : (lookupChunk (chunkMove s₂ cid dev) cid).map chunkShape
                = some (chunkShape c) := by
              rw [chunkMove_shape, hl2, Option.map_some', h2]
            cases hl3 : lookupChunk (chunkMove s₂ cid dev) cid with
            | none => rw [hl3] at hdev; simp at hdev
            | some c₃ =>
                rw [hl3] at hdev hsh
                simp only [Option.map_some', Option.some.injEq] at hdev hsh
                exact ⟨c₃, rfl, hsh, hdev,
                  by rw [chunkMove_globalTime, hgt]⟩

theorem accessBind_ok_post (s : HybridPSClient) (p : PSParam)
    (at_ : AccessType) (dev : Device) (tid cid : Nat) (c : Chunk)
    (hc : lookupChunk s cid = some c)
    (hrange : (tensorStatusIn c tid).isSome)
    (s' : HybridPSClient) (p' : PSParam)
    (hok : accessBind s p at_ dev tid cid cid = Except.ok (s', p')) :
    statusOf p' at_ = PSTensorStatus.COMPUTE
    ∧ (∃ c', lookupChunk s' cid = some c' ∧ c'.device = dev
        ∧ tensorStatusIn c' tid = some PSTensorStatus.COMPUTE
        ∧ c'.timestamp = s.globalTime + 1)
    ∧ externalView p' at_ = some (DataHandle.chunkView cid) := by
  unfold accessBind at hok
  rw [hc] at hok
  simp only [Option.map_some'] at hok
  cases hm : accessMoveStep s dev c.device cid with
  | error e => rw [hm] at hok; cases hok
  | ok s₃ =>
      rw [hm] at hok
      simp only [] at hok
      obtain ⟨c₃, hl3, hsh3, hdev3, hgt3⟩ := accessMoveStep_ok_facts _ _ _ _ hc _ hm
      obtain ⟨_, _, hinfo3, hts3⟩ := chunkShape_parts hsh3
      have hl4 : lookupChunk (touchChunk s₃ cid) cid
          = some { c₃ with timestamp := s₃.globalTime + 1 } := by
        rw [touchChunk_lookup_self, hl3]
        rfl
      have hrange4 : (tensorStatusIn { c₃ with timestamp := s₃.globalTime + 1 } tid).isSome := by
        rw [tensorStatusIn_congr tid (show Chunk.tensorInfoList { c₃ with timestamp := s₃.globalTime + 1 } = c.tensorInfoList from hinfo3)]
        exact hrange
      have hl5 : lookupChunk
          (setTensorStatus (touchChunk s₃ cid) cid tid PSTensorStatus.COMPUTE) cid
          = some { c₃ with
              timestamp := s₃.globalTime + 1,
              tensorInfoList := setStatusInfoList c₃.tensorInfoList tid
                PSTensorStatus.COMPUTE } := by
        rw [setTensorStatus_lookup_self, hl4]
        rfl
      cases at_ with
      | DATA =>
          unfold accessFinish at hok
          simp only [] at hok
          injection hok with hpair
          injection hpair with hs hp
          subst hs
          subst hp
          refine ⟨rfl, ⟨_, hl5, ?_, ?_, ?_⟩, rfl⟩
          · exact hdev3
          · exact tensorStatusIn_set _ _ _ hrange4
          · show s₃.globalTime + 1 = s.globalTime + 1
            rw [hgt3]
      | GRAD =>
          unfold accessFinish at hok
          simp only [] at hok
          rw [hl4] at hok
          simp only [Option.map_some'] at hok
          by_cases ha : handleDevice (touchChunk s₃ cid)
              (gradPlaceholder p { c₃ with timestamp := s₃.globalTime + 1 }.device).data
              ≠ some { c₃ with timestamp := s₃.globalTime + 1 }.device
          · rw [if_pos ha] at hok
            cases hok
          · rw [if_neg ha] at hok
            injection hok with hpair
            injection hpair with hs hp
            subst hs
            subst hp
            refine ⟨rfl, ⟨_, hl5, ?_, ?_, ?_⟩, rfl⟩
            · exact hdev3
            · exact tensorStatusIn_set _ _ _ hrange4
            · show s₃.globalTime + 1 = s.globalTime + 1
              rw [hgt3]

theorem access_eq_accessBind (s : HybridPSClient) (p : PSParam)
    (at_ : AccessType) (dev : Device) (tid cid : Nat)
    (hps : isPsParam p = true)
    (h1 : tensorIdOf p at_ = some tid)
    (h2 : tensorIdToChunkId s tid = some cid)
    (hv : viewOf p at_ = some cid) :
    access s p at_ dev = accessBind s p at_ dev tid cid cid := by
  unfold access
  rw [hps, Bool.not_true, if_neg Bool.false_ne_true, h1]
  simp only []
  rw [h2]
  simp only []
  rw [hv]

/-! ### Claim theorems: access -/

/-- C4: `access` fails with the `NotManaged` error exactly on parameters
that were never registered with the manager (no `ps_data_id` attribute,
`src/client/client.py` lines 129-131 and 273-275); the error carries no
successor state, so nothing is mutated, and on a registered parameter no
path of `access` produces `NotManaged` (other failures surface as different
errors). -/
theorem access_not_managed_iff (s : HybridPSClient) (p : PSParam)
    (at_ : AccessType) (dev : Device) :
    access s p at_ dev = Except.error PSError.NotManaged
      ↔ isPsParam p = false := by
  constructor
  · intro h
    cases hps : isPsParam p
    · rfl
    · exfalso
      unfold access at h
      rw [hps, Bool.not_true, if_neg Bool.false_ne_true] at h
      cases h1 : tensorIdOf p at_ with
      | none => rw [h1] at h; cases h
      | some tid =>
          rw [h1] at h
          simp only [] at h
          cases h2 : tensorIdToChunkId s tid with
          | some cid =>
              rw [h2] at h
              simp only [] at h
              cases hv : viewOf p at_ with
              | none => rw [hv] at h; cases h
              | some vc =>
                  rw [hv] at h
                  exact accessBind_ne_notManaged _ _ _ _ _ _ _ h
          | none =>
              rw [h2] at h
              simp only [] at h
              exact accessBind_ne_notManaged _ _ _ _ _ _ _ h
  · intro h
    unfold access
    rw [h, Bool.not_false, if_pos rfl]

/-- C5: after a successful `access(param, kind, compute_device)` on a
registered, chunk-bound parameter whose view agrees with the tensor index,
the accessed tensor's status is COMPUTE both on the parameter and in the
hosting chunk's range list, the hosting chunk is resident on the compute
device, its recency counter strictly increased (it was touched), and the
externally bound view (`param.data` / `param.grad`) is a view into the
hosting chunk's current backing buffer (`src/client/client.py` lines
154-199). -/
theorem access_success_postconditions (s : HybridPSClient) (p : PSParam)
    (at_ : AccessType) (dev : Device) (tid cid : Nat) (c : Chunk)
    (hps : isPsParam p = true)
    (h1 : tensorIdOf p at_ = some tid)
    (h2 : tensorIdToChunkId s tid = some cid)
    (hv : viewOf p at_ = some cid)
    (hc : lookupChunk s cid = some c)
    (hrange : (tensorStatusIn c tid).isSome)
    (hts : c.timestamp ≤ s.globalTime)
    (s' : HybridPSClient) (p' : PSParam)
    (hok : access s p at_ dev = Except.ok (s', p')) :
    statusOf p' at_ = PSTensorStatus.COMPUTE
    ∧ (∃ c', lookupChunk s' cid = some c' ∧ c'.device = dev
        ∧ tensorStatusIn c' tid = some PSTensorStatus.COMPUTE
        ∧ c.timestamp < c'.timestamp)
    ∧ externalView p' at_ = some (DataHandle.chunkView cid) := by
  rw [access_eq_accessBind s p at_ dev tid cid hps h1 h2 hv] at hok
  obtain ⟨ha, ⟨c', hl, hdev, hst, hts'⟩, hview⟩ :=
    accessBind_ok_post s p at_ dev tid cid c hc hrange s' p' hok
  exact ⟨ha, ⟨c', hl, hdev, hst, hts' ▸ Nat.lt_succ_of_le hts⟩, hview⟩

/-! ### Witnesses for the access claims -/

/-- Witness for C5: a concrete data access on the compute device the chunk
already occupies succeeds, and the postconditions hold for it. -/
theorem access_success_postconditions_witness :
    (isPsParam paramA = true
      ∧ tensorIdOf paramA AccessType.DATA = some 0
      ∧ tensorIdToChunkId clientA 0 = some 0
      ∧ viewOf paramA AccessType.DATA = some 0
      ∧ lookupChunk clientA 0 = some chunkA
      ∧ (tensorStatusIn chunkA 0).isSome = true
      ∧ chunkA.timestamp ≤ clientA.globalTime
      ∧ access clientA paramA AccessType.DATA Device.cuda0
          = Except.ok (clientA5, paramA5))
    ∧ (statusOf paramA5 AccessType.DATA = PSTensorStatus.COMPUTE
      ∧ (∃ c', lookupChunk clientA5 0 = some c' ∧ c'.device = Device.cuda0
          ∧ tensorStatusIn c' 0 = some PSTensorStatus.COMPUTE
          ∧ chunkA.timestamp < c'.timestamp)
      ∧ externalView paramA5 AccessType.DATA
          = some (DataHandle.chunkView 0)) :=
  ⟨⟨by decide, by decide, by decide, by decide, by decide, by decide,
    by decide, by rfl⟩,
   access_success_postconditions clientA paramA AccessType.DATA Device.cuda0
     0 0 chunkA (by decide) (by decide) (by decide) (by decide) (by decide)
     (by decide) (by decide) clientA5 paramA5 (by rfl)⟩

/-- C8: accessing the gradient of a parameter whose data status is not
COMPUTE does not fail: the parameter's data handle is replaced by a
zero-filled buffer of the parameter's full element count on the gradient
chunk's device, after which the gradient view is bound and marked COMPUTE
(`src/client/client.py` lines 176-199; stated for a gradient chunk already
resident on the compute device, so that the outcome is decided by the
mismatch handling alone and not by memory pressure). -/
theorem access_grad_mismatch_placeholder (s : HybridPSClient) (p : PSParam)
    (dev : Device) (tid cid : Nat) (c : Chunk)
    (hps : isPsParam p = true)
    (h1 : p.psGradId = some tid)
    (h2 : tensorIdToChunkId s tid = some cid)
    (hv : p.psGradTensor = some cid)
    (hc : lookupChunk s cid = some c)
    (hdev : c.device = dev)
    (hmis : p.dataStatus ≠ PSTensorStatus.COMPUTE) :
    access s p AccessType.GRAD dev
      = Except.ok
          (setTensorStatus (touchChunk s cid) cid tid PSTensorStatus.COMPUTE,
            { p with
              data := DataHandle.zeroBuffer (psNumel p) dev,
              gradStatus := PSTensorStatus.COMPUTE,
              grad := some (DataHandle.chunkView cid) }) := by
  rw [access_eq_accessBind s p AccessType.GRAD dev tid cid hps h1 h2 hv]
  unfold accessBind
  rw [hc]
  simp only [Option.map_some']
  unfold accessMoveStep
  rw [hdev, if_pos rfl]
  simp only []
  unfold accessFinish
  simp only []
  rw [touchChunk_lookup_self, hc]
  simp only [Option.map_some']
  unfold gradPlaceholder
  rw [if_pos hmis]
  simp only [handleDevice]
  rw [if_neg (by simp), hdev]

/-! ### Release lemmas -/

theorem release_data_eq (s : HybridPSClient) (p : PSParam)
    (rs : PSTensorStatus) (tid cid : Nat) (dv : Device)
    (h1 : p.psDataId = some tid)
    (h2 : tensorIdToChunkId s tid = some cid)
    (hdev : handleDevice s p.data = some dv) :
    release s p AccessType.DATA rs = Except.ok
      (deleteFreeChunks (setTensorStatus s cid tid rs),
       { p with data := DataHandle.zeroBuffer 1 dv, dataStatus := rs }) := by
  unfold release
  simp only [tensorIdOf]
  rw [h1]
  simp only []
  rw [h2]
  simp only []
  rw [hdev]

theorem release_grad_eq (s : HybridPSClient) (p : PSParam)
    (rs : PSTensorStatus) (tid cid : Nat)
    (h1 : p.psGradId = some tid)
    (h2 : tensorIdToChunkId s tid = some cid) :
    release s p AccessType.GRAD rs = Except.ok
      (deleteFreeChunks (setTensorStatus s cid tid rs),
       { p with grad := none, gradStatus := rs }) := by
  unfold release
  simp only [tensorIdOf]
  rw [h1]
  simp only []
  rw [h2]

theorem release_unbound_eq (s : HybridPSClient) (p : PSParam)
    (at_ : AccessType) (rs : PSTensorStatus) (tid : Nat)
    (h1 : tensorIdOf p at_ = some tid)
    (h2 : tensorIdToChunkId s tid = none) :
    release s p at_ rs = Except.ok (s, p) := by
  unfold release
  rw [h1]
  simp only []
  rw [h2]

theorem deleteFreeChunks_no_dead (s : HybridPSClient) :
    ∀ q ∈ (deleteFreeChunks s).chunks, q.2.allFree = false := by
  intro q hq
  have hq' : q ∈ List.filter (fun q => ! q.2.allFree) s.chunks := hq
  have := (List.mem_filter.mp hq').2
  simpa using this

theorem statusIn_after_set_delete (s : HybridPSClient) (cid tid : Nat)
    (rs : PSTensorStatus) (c : Chunk)
    (hnd : (s.chunks.map Prod.fst).Nodup)
    (hc : lookupChunk s cid = some c)
    (hrange : (tensorStatusIn c tid).isSome) :
    ∀ c', lookupChunk (deleteFreeChunks (setTensorStatus s cid tid rs)) cid
        = some c' → tensorStatusIn c' tid = some rs := by
  intro c' hlook
  have hmem1 : (cid, c') ∈ List.filter (fun q => ! q.2.allFree)
      (setTensorStatus s cid tid rs).chunks := lookupAssoc_mem hlook
  have hmem2 : (cid, c') ∈ (setTensorStatus s cid tid rs).chunks :=
    (List.mem_filter.mp hmem1).1
  have hmem3 : (cid, c') ∈ updateAssoc s.chunks cid
      (fun ch => { ch with
        tensorInfoList := setStatusInfoList ch.tensorInfoList tid rs }) := hmem2
  obtain ⟨c₀, hc₀, hce⟩ := mem_updateAssoc hmem3
  have hl₀ : lookupAssoc s.chunks cid = some c₀ :=
    lookupAssoc_of_mem_nodup hnd hc₀
  rw [← lookupChunk_def, hc] at hl₀
  injection hl₀ with hl₀
  subst hl₀
  rw [hce]
  exact tensorStatusIn_set _ _ _ hrange

/-! ### Claim theorems: release -/

/-- C6 (amended): `release` triggers reclamation of fully-dead chunks only
when the released tensor is bound to a chunk: in that case no chunk whose
ranges are all FREE survives in the resulting state; when the tensor has no
hosting chunk, `release` returns immediately with the state unchanged and
performs no reclamation (`src/client/client.py` lines 217-235, early return
at lines 220-221). -/
theorem release_reclaims_only_when_bound (s : HybridPSClient) (p : PSParam)
    (at_ : AccessType) (rs : PSTensorStatus) (tid : Nat)
    (h1 : tensorIdOf p at_ = some tid) :
    (∀ cid, tensorIdToChunkId s tid = some cid →
      ∀ s' p', release s p at_ rs = Except.ok (s', p') →
        ∀ q ∈ s'.chunks, q.2.allFree = false)
    ∧ (tensorIdToChunkId s tid = none →
        release s p at_ rs = Except.ok (s, p)) := by
  constructor
  · intro cid h2 s' p' hok
    cases at_ with
    | DATA =>
        have h1' : p.psDataId = some tid := h1
        unfold release at hok
        simp only [tensorIdOf] at hok
        rw [h1'] at hok
        simp only [] at hok
        rw [h2] at hok
        simp only [] at hok
        cases hd : handleDevice s p.data with
        | none => rw [hd] at hok; cases hok
        | some dv =>
            rw [hd] at hok
            injection hok with hpair
            injection hpair with hs hp
            subst hs
            exact deleteFreeChunks_no_dead _
    | GRAD =>
        have h1' : p.psGradId = some tid := h1
        rw [release_grad_eq s p rs tid cid h1' h2] at hok
        injection hok with hpair
        injection hpair with hs hp
        subst hs
        exact deleteFreeChunks_no_dead _
  · intro h2
    exact release_unbound_eq s p at_ rs tid h1 h2

/-- C7: releasing a chunk-bound tensor writes exactly `reset_status` into
the hosting chunk's range list (observable whenever the chunk survives
reclamation), mirrors it on the parameter, and — when the status is FREE —
the caller-facing view no longer aliases any chunk's backing buffer
(`src/client/client.py` lines 222-235). -/
theorem release_sets_status_and_invalidates (s : HybridPSClient)
    (p : PSParam) (at_ : AccessType) (rs : PSTensorStatus) (tid cid : Nat)
    (c : Chunk)
    (hnd : (s.chunks.map Prod.fst).Nodup)
    (h1 : tensorIdOf p at_ = some tid)
    (h2 : tensorIdToChunkId s tid = some cid)
    (hc : lookupChunk s cid = some c)
    (hrange : (tensorStatusIn c tid).isSome)
    (s' : HybridPSClient) (p' : PSParam)
    (hok : release s p at_ rs = Except.ok (s', p')) :
    (∀ c', lookupChunk s' cid = some c' → tensorStatusIn c' tid = some rs)
    ∧ statusOf p' at_ = rs
    ∧ (rs = PSTensorStatus.FREE →
        ∀ k, externalView p' at_ ≠ some (DataHandle.chunkView k)) := by
  cases at_ with
  | DATA =>
      have h1' : p.psDataId = some tid := h1
      unfold release at hok
      simp only [tensorIdOf] at hok
      rw [h1'] at hok
      simp only [] at hok
      rw [h2] at hok
      simp only [] at hok
      cases hd : handleDevice s p.data with
      | none => rw [hd] at hok; cases hok
      | some dv =>
          rw [hd] at hok
          injection hok with hpair
          injection hpair with hs hp
          subst hs
          subst hp
          refine ⟨statusIn_after_set_delete s cid tid rs c hnd hc hrange,
            rfl, ?_⟩
          intro _ k hk
          simp [externalView] at hk
  | GRAD =>
      have h1' : p.psGradId = some tid := h1
      rw [release_grad_eq s p rs tid cid h1' h2] at hok
      injection hok with hpair
      injection hpair with hs hp
      subst hs
      subst hp
      refine ⟨statusIn_after_set_delete s cid tid rs c hnd hc hrange,
        rfl, ?_⟩
      intro _ k hk
      simp [externalView] at hk

/-- C10: even with the default `reset_status = HOLD`, releasing a bound
data tensor redirects the parameter's external data handle to a freshly
allocated one-element zero buffer (so the caller-held chunk view is
invalidated although the status is only HOLD, `src/client/client.py` line
226), and releasing a gradient sets the external grad handle to `None`
regardless of the reset status (line 231). -/
theorem release_redirects_external_handles (s : HybridPSClient)
    (p : PSParam) (tid cid gtid gcid : Nat) (dv : Device)
    (h1 : p.psDataId = some tid)
    (h2 : tensorIdToChunkId s tid = some cid)
    (hdev : handleDevice s p.data = some dv)
    (hg1 : p.psGradId = some gtid)
    (hg2 : tensorIdToChunkId s gtid = some gcid) :
    release s p AccessType.DATA PSTensorStatus.HOLD = Except.ok
      (deleteFreeChunks (setTensorStatus s cid tid PSTensorStatus.HOLD),
       { p with
         data := DataHandle.zeroBuffer 1 dv,
         dataStatus := PSTensorStatus.HOLD })
    ∧ ∀ rs, release s p AccessType.GRAD rs = Except.ok
        (deleteFreeChunks (setTensorStatus s gcid gtid rs),
         { p with grad := none, gradStatus := rs }) :=
  ⟨release_data_eq s p PSTensorStatus.HOLD tid cid dv h1 h2 hdev,
   fun rs => release_grad_eq s p rs gtid gcid hg1 hg2⟩

/-! ### Claim theorems: registration and lifecycle -/

/-- C9 (amended): a newly registered parameter's tracked tensors start in
status FREE (not UNINIT) with no chunk assigned (`src/client/client.py`
lines 309-330 set `data_status = grad_status = FREE` and the ps tensors to
`None`), and the first allocation (`_convert_to_ps_data`, lines 287-296)
transitions the data tensor FREE → HOLD while binding it to a chunk
registered in the tensor index. -/
theorem init_param_starts_free (s : HybridPSClient) (p : PSParam)
    (hfresh : isPsParam p = false) :
    ((initPsParam s p).2.dataStatus = PSTensorStatus.FREE
      ∧ (initPsParam s p).2.gradStatus = PSTensorStatus.FREE
      ∧ (initPsParam s p).2.psDataTensor = none)
    ∧ ∀ s₂ p₂ tid, p₂.psDataId = some tid →
        ∃ s₃ cid, convertToPsData s₂ p₂ = Except.ok (s₃,
            { p₂ with
              psDataTensor := some cid,
              data := DataHandle.chunkView cid,
              dataStatus := PSTensorStatus.HOLD })
          ∧ tensorIdToChunkId s₃ tid = some cid := by
  constructor
  · have hpn : p.psDataId = none := by
      cases hp : p.psDataId with
      | none => rfl
      | some v =>
          unfold isPsParam at hfresh
          rw [hp] at hfresh
          simp at hfresh
    unfold initPsParam
    rw [hfresh, if_neg Bool.false_ne_true]
    dsimp only
    rw [hpn]
    dsimp only [Option.isNone_none]
    rw [if_pos rfl]
    split <;> exact ⟨rfl, rfl, rfl⟩
  · intro s₂ p₂ tid h
    refine ⟨(newTensor s₂ p₂.psShape p₂.dtype tid).1,
      (newTensor s₂ p₂.psShape p₂.dtype tid).2, ?_, ?_⟩
    · unfold convertToPsData
      rw [h]
    · show lookupAssoc ((tid, _) :: _) tid = _
      simp only [lookupAssoc, if_pos rfl]
      rfl

/-! ### Counterexamples and remaining witnesses -/

/-- Counterexample for C9: the code initialises a freshly registered
parameter's data status to FREE, not UNINIT (`src/client/client.py` line
319), and a tensor that has been allocated can lose its chunk assignment —
releasing it to FREE reclaims its chunk and deletes its index entry, after
which the tensor resolves to no chunk. -/
theorem init_param_uninit_cex :
    ((initPsParam clientA paramFresh).2.dataStatus ≠ PSTensorStatus.UNINIT
      ∧ (initPsParam clientA paramFresh).2.dataStatus = PSTensorStatus.FREE)
    ∧ (release clientA paramA AccessType.DATA PSTensorStatus.FREE).map
        (fun r => tensorIdToChunkId r.1 0) = Except.ok none :=
  ⟨⟨by decide, by decide⟩, by rfl⟩

/-- Witness for C9 (amended): the initial-status and first-allocation
behaviour at a concrete fresh parameter. -/
theorem init_param_starts_free_witness :
    isPsParam paramFresh = false
    ∧ (((initPsParam clientA paramFresh).2.dataStatus = PSTensorStatus.FREE
        ∧ (initPsParam clientA paramFresh).2.gradStatus = PSTensorStatus.FREE
        ∧ (initPsParam clientA paramFresh).2.psDataTensor = none)
      ∧ ∀ s₂ p₂ tid, p₂.psDataId = some tid →
          ∃ s₃ cid, convertToPsData s₂ p₂ = Except.ok (s₃,
              { p₂ with
                psDataTensor := some cid,
                data := DataHandle.chunkView cid,
                dataStatus := PSTensorStatus.HOLD })
            ∧ tensorIdToChunkId s₃ tid = some cid) :=
  ⟨by decide, init_param_starts_free clientA paramFresh (by decide)⟩

/-- Counterexample for C6: releasing a parameter whose gradient tensor is
bound to no chunk returns at once (`src/client/client.py` lines 220-221)
without reclaiming anything: a fully-FREE chunk survives the call. -/
theorem release_unbound_no_reclaim_cex :
    release clientDead paramU AccessType.GRAD PSTensorStatus.HOLD
        = Except.ok (clientDead, paramU)
    ∧ clientDead.chunks.any (fun q => q.2.allFree) = true :=
  ⟨by rfl, by decide⟩

/-- Witness for C6 (amended): applied at a bound data release that does
reclaim, and at the unbound gradient of the same fixture. -/
theorem release_reclaims_only_when_bound_witness :
    tensorIdOf paramA AccessType.DATA = some 0
    ∧ ((∀ cid, tensorIdToChunkId clientA 0 = some cid →
        ∀ s' p', release clientA paramA AccessType.DATA PSTensorStatus.FREE
            = Except.ok (s', p') →
          ∀ q ∈ s'.chunks, q.2.allFree = false)
      ∧ (tensorIdToChunkId clientA 0 = none →
          release clientA paramA AccessType.DATA PSTensorStatus.FREE
            = Except.ok (clientA, paramA))) :=
  ⟨by decide,
   release_reclaims_only_when_bound clientA paramA AccessType.DATA
     PSTensorStatus.FREE 0 (by decide)⟩

/-- Witness for C7: a concrete bound release to FREE; the chunk becomes
entirely dead and is reclaimed, the parameter mirrors the status, and the
external view no longer aliases a chunk. -/
theorem release_sets_status_witness :
    ((clientA.chunks.map Prod.fst).Nodup
      ∧ tensorIdOf paramA AccessType.DATA = some 0
      ∧ tensorIdToChunkId clientA 0 = some 0
      ∧ lookupChunk clientA 0 = some chunkA
      ∧ (tensorStatusIn chunkA 0).isSome = true
      ∧ release clientA paramA AccessType.DATA PSTensorStatus.FREE
          = Except.ok (clientA7, paramA7))
    ∧ ((∀ c', lookupChunk clientA7 0 = some c'
          → tensorStatusIn c' 0 = some PSTensorStatus.FREE)
      ∧ statusOf paramA7 AccessType.DATA = PSTensorStatus.FREE
      ∧ (PSTensorStatus.FREE = PSTensorStatus.FREE →
          ∀ k, externalView paramA7 AccessType.DATA
            ≠ some (DataHandle.chunkView k))) :=
  ⟨⟨by decide, by decide, by decide, by decide, by decide, by rfl⟩,
   release_sets_status_and_invalidates clientA paramA AccessType.DATA
     PSTensorStatus.FREE 0 0 chunkA (by decide) (by decide) (by decide)
     (by decide) (by decide) clientA7 paramA7 (by rfl)⟩

/-- Witness for C8: a concrete gradient access with the parameter's data
status HOLD (not COMPUTE) succeeds and substitutes the zero placeholder. -/
theorem access_grad_mismatch_placeholder_witness :
    (isPsParam paramG = true
      ∧ paramG.psGradId = some 0
      ∧ tensorIdToChunkId clientA 0 = some 0
      ∧ paramG.psGradTensor = some 0
      ∧ lookupChunk clientA 0 = some chunkA
      ∧ chunkA.device = Device.cuda0
      ∧ paramG.dataStatus ≠ PSTensorStatus.COMPUTE)
    ∧ access clientA paramG AccessType.GRAD Device.cuda0
        = Except.ok
            (setTensorStatus (touchChunk clientA 0) 0 0 PSTensorStatus.COMPUTE,
              { paramG with
                data := DataHandle.zeroBuffer (psNumel paramG) Device.cuda0,
                gradStatus := PSTensorStatus.COMPUTE,
                grad := some (DataHandle.chunkView 0) }) :=
  ⟨⟨by decide, by decide, by decide, by decide, by decide, by decide,
    by decide⟩,
   access_grad_mismatch_placeholder clientA paramG Device.cuda0 0 0 chunkA
     (by decide) (by decide) (by decide) (by decide) (by decide) (by decide)
     (by decide)⟩

/-- Witness for C3: a concrete admission with deficit 30 on `cuda:0` selects
the resident HOLD chunk and the theorem's conclusions hold there. -/
theorem prepare_device_evicts_witness :
    (50 ≤ clientC.manager.maxMem Device.cuda0
      ∧ clientC.manager.availableMem Device.cuda0 < 50
      ∧ chunkToMoveOutForRoomMaking clientC
          (50 - clientC.manager.availableMem Device.cuda0) Device.cuda0
          = Except.ok [0])
    ∧ (prepareDevice clientC Device.cuda0 50
          = Except.ok (moveAll [0] (altDevice Device.cuda0) clientC)
      ∧ (Device.cuda0.devType = DevType.cuda → altDevice Device.cuda0 = Device.cpu0)
      ∧ (Device.cuda0.devType = DevType.cpu → altDevice Device.cuda0 = Device.cuda0)
      ∧ ∀ cid ∈ [0],
          (∃ c, (cid, c) ∈ clientC.chunks ∧ c.device = Device.cuda0
            ∧ c.hasCompute = false)
          ∧ (lookupChunk (moveAll [0] (altDevice Device.cuda0) clientC) cid).map
              Chunk.device = some (altDevice Device.cuda0)) :=
  ⟨⟨by decide, by decide, by rfl⟩,
   prepare_device_evicts_to_alternate_tier clientC Device.cuda0 50 [0]
     (by decide) (by decide) (by rfl)⟩

/-- Witness for C10: a concrete parameter with bound data and gradient; the
HOLD release of its data and any release of its gradient redirect the
external handles as stated. -/
theorem release_redirects_external_handles_witness :
    (paramD.psDataId = some 0
      ∧ tensorIdToChunkId clientD 0 = some 0
      ∧ handleDevice clientD paramD.data = some Device.cuda0
      ∧ paramD.psGradId = some 1
      ∧ tensorIdToChunkId clientD 1 = some 0)
    ∧ (release clientD paramD AccessType.DATA PSTensorStatus.HOLD = Except.ok
        (deleteFreeChunks (setTensorStatus clientD 0 0 PSTensorStatus.HOLD),
         { paramD with
           data := DataHandle.zeroBuffer 1 Device.cuda0,
           dataStatus := PSTensorStatus.HOLD })
      ∧ ∀ rs, release clientD paramD AccessType.GRAD rs = Except.ok
          (deleteFreeChunks (setTensorStatus clientD 0 1 rs),
           { paramD with grad := none, gradStatus := rs })) :=
  ⟨⟨by decide, by decide, by decide, by decide, by decide⟩,
   release_redirects_external_handles clientD paramD 0 0 1 0 Device.cuda0
     (by decide) (by decide) (by decide) (by decide) (by decide)⟩


end PatrickStar
